import Mathlib

/-!
Verification of the bootstrap controller and main-loop logic of
`bootstrap_mhd_rbc.py` and `forces_mhd_rayleigh_benard.py`.

The scripts are thin drivers over an external spectral PDE framework; the
in-repo logic that the claims concern is the bootstrap controller (trigger
heuristic, parameter stepping, velocity/time rescaling, accumulator resets),
the main-loop guard, the exception handlers, and the `--factor` setup step.
These are shallowly embedded below.  Machine floats are modelled by exact
reals (with an explicit `PyFloat` wrapper where finiteness matters); the CLI
fraction flags (`--alp`, `--β`, `--logStep`) are modelled as rationals, which
is what `Fraction` parses them as before the `float` conversion.
-/

/-- Parameter update applied when a bootstrap step fires
(`bootstrap_mhd_rbc.py` lines 544-552).  `bootstrap_β == 0` takes the first
branch, otherwise `bootstrap_α == 0` the second, otherwise both exponents are
nonzero and `nQ = cQ/(10**logStep)**(α/β)`.  Returns `(nRa, nQ)`. -/
noncomputable def paramStep (bootstrap_α bootstrap_β bootstrap_logStep : ℚ)
    (cRa cQ : ℝ) : ℝ × ℝ :=
  if bootstrap_β = 0 then
    (cRa * (10 : ℝ) ^ (bootstrap_logStep : ℝ), cQ)
  else if bootstrap_α = 0 then
    (cRa, cQ * (10 : ℝ) ^ (bootstrap_logStep : ℝ))
  else
    (cRa * (10 : ℝ) ^ (bootstrap_logStep : ℝ),
      cQ / ((10 : ℝ) ^ (bootstrap_logStep : ℝ)) ^ ((bootstrap_α : ℝ) / (bootstrap_β : ℝ)))

/-- Scalar state of the bootstrap controller inside the main loop of
`bootstrap_mhd_rbc.py` (lines 452-470 for the initialisation).  The velocity
fields `u`, `v`, `w` are tracked at one (arbitrary) grid point: every update
the script performs on them is pointwise, so one representative value per
field captures the per-point behaviour.  `v` exists as a solver state field
only in 3D runs; the bootstrap block is the same code in both geometries.
`bootstrap_force_balances` and `rolled` are likewise tracked at one
representative array entry (the script zeroes whole arrays with `*= 0`).
`cfl_max_dt` models the `CFL.max_dt` attribute of the CFL controller. -/
structure BootState where
  cRa : ℝ
  cQ : ℝ
  u : ℝ
  v : ℝ
  w : ℝ
  bootstrap_force_balances : ℝ
  rolled : ℝ
  bootstrap_i : ℕ
  last_bootstrap_time : ℝ
  bootstrap_now : Bool
  bootstrap_wait_time : ℝ
  bootstrap_steps : ℕ
  max_dt : ℝ
  cfl_max_dt : ℝ
  t_buoy : ℝ

/-- Trigger heuristic run every loop iteration
(`bootstrap_mhd_rbc.py` lines 531-534): a sub-unity average Reynolds number
resets the last-bootstrap-time marker; otherwise, once the elapsed simulation
time since the marker exceeds the wait time, `bootstrap_now` is set. -/
noncomputable def triggerUpdate (Re_avg sim_time : ℝ) (st : BootState) : BootState :=
  if Re_avg < 1 then
    { st with last_bootstrap_time := sim_time }
  else if sim_time - st.last_bootstrap_time > st.bootstrap_wait_time then
    { st with bootstrap_now := true }
  else
    st

/-- Body of the firing branch (`bootstrap_mhd_rbc.py` lines 544-580), applied
after `bootstrap_now` has been consumed and `bootstrap_steps` incremented:
compute `(nRa, nQ)`, rescale `u` and `w` by `u_factor = sqrt(nRa/cRa)`
(lines 557-560; `v` is not touched), rescale the wait time and `max_dt` by
`cRa/nRa` and install the new `max_dt` in the CFL controller (lines 562-564),
install the new parameters and buoyancy time (lines 572-575), and zero the
rolling accumulators and reset the marker (lines 577-580). -/
noncomputable def applyBootstrapStep (bootstrap_α bootstrap_β bootstrap_logStep : ℚ)
    (Pr sim_time : ℝ) (st : BootState) : BootState :=
  let nRaQ := paramStep bootstrap_α bootstrap_β bootstrap_logStep st.cRa st.cQ
  let nRa := nRaQ.1
  let nQ := nRaQ.2
  let u_factor := Real.sqrt (nRa / st.cRa)
  { st with
    cRa := nRa
    cQ := nQ
    u := st.u * u_factor
    w := st.w * u_factor
    bootstrap_wait_time := st.bootstrap_wait_time * (st.cRa / nRa)
    max_dt := st.max_dt * (st.cRa / nRa)
    cfl_max_dt := st.max_dt * (st.cRa / nRa)
    t_buoy := Real.sqrt (Pr / nRa)
    bootstrap_force_balances := st.bootstrap_force_balances * 0
    rolled := st.rolled * 0
    bootstrap_i := 0
    last_bootstrap_time := sim_time }

/-- One main-loop iteration of the bootstrap logic
(`bootstrap_mhd_rbc.py` lines 531-580): run the trigger heuristic, then, if
`bootstrap_now` is set, either `break` out of the loop (modelled as `none`)
when `bootstrap_steps == max_bootstrap_steps`, or clear `bootstrap_now`,
increment `bootstrap_steps` and apply the step. -/
noncomputable def loopCheck (bootstrap_α bootstrap_β bootstrap_logStep : ℚ)
    (Pr : ℝ) (Re_avg sim_time : ℝ) (max_bootstrap_steps : ℕ)
    (st : BootState) : Option BootState :=
  let st1 := triggerUpdate Re_avg sim_time st
  if st1.bootstrap_now then
    if st1.bootstrap_steps = max_bootstrap_steps then
      none
    else
      some (applyBootstrapStep bootstrap_α bootstrap_β bootstrap_logStep Pr sim_time
        { st1 with bootstrap_now := false, bootstrap_steps := st1.bootstrap_steps + 1 })
  else
    some st1

/-- One observation of the main loop: the current `Re_avg` value and the
current `solver.sim_time` at the point where lines 531-534 run. -/
structure Sample where
  re : ℝ
  t : ℝ

/-- Folding `loopCheck` over a sequence of per-iteration observations;
`none` records that the loop was left via the `break` on line 540. -/
noncomputable def runSamples (bootstrap_α bootstrap_β bootstrap_logStep : ℚ)
    (Pr : ℝ) (max_bootstrap_steps : ℕ) :
    List Sample → BootState → Option BootState
  | [], st => some st
  | q :: qs, st =>
    match loopCheck bootstrap_α bootstrap_β bootstrap_logStep Pr q.re q.t
        max_bootstrap_steps st with
    | none => none
    | some st1 => runSamples bootstrap_α bootstrap_β bootstrap_logStep Pr
        max_bootstrap_steps qs st1

/-- Iterating the fired-step body once per element of `ts` (the firing
simulation times): the state after `ts.length` fired bootstrap steps. -/
noncomputable def applyStepsOver (bootstrap_α bootstrap_β bootstrap_logStep : ℚ)
    (Pr : ℝ) : List ℝ → BootState → BootState
  | [], st => st
  | t :: ts, st => applyStepsOver bootstrap_α bootstrap_β bootstrap_logStep Pr ts
      (applyBootstrapStep bootstrap_α bootstrap_β bootstrap_logStep Pr t st)

/-- Model of a Python float as observed by `np.isfinite`: either an exact
finite value or one of the non-finite values. -/
inductive PyFloat where
  | finite (x : ℝ)
  | nan
  | posInf
  | negInf

/-- Model of `np.isfinite` on a scalar. -/
def PyFloat.isfinite : PyFloat → Bool
  | .finite _ => true
  | _ => false

/-- Observable state of the outer `while` loop guard: `solver.ok` and the
tracked `Re_avg` value. -/
structure SimLoopState where
  ok : Bool
  Re_avg : PyFloat

/-- Guard of the main loop of `bootstrap_mhd_rbc.py` line 481:
`while (solver.ok and np.isfinite(Re_avg))`. -/
def bootstrapWhileCond (s : SimLoopState) : Bool :=
  s.ok && s.Re_avg.isfinite

/-- Guard of the main loop of `forces_mhd_rayleigh_benard.py` line 436:
`while (solver.ok and np.isfinite(Re_avg))`. -/
def forcesWhileCond (s : SimLoopState) : Bool :=
  s.ok && s.Re_avg.isfinite

/-- Number of loop-body executions (each beginning with a `solver.step` call)
a `while` loop performs within `fuel` guard checks, starting from state `s`:
the body runs only when the guard holds at the preceding check. -/
def stepsTaken (cond : SimLoopState → Bool) (body : SimLoopState → SimLoopState) :
    ℕ → SimLoopState → ℕ
  | 0, _ => 0
  | n + 1, s => if cond s then stepsTaken cond body n (body s) + 1 else 0

/-- Statements appearing in the two `except:` handlers of
`bootstrap_mhd_rbc.py` (lines 582-584 and 599-601). -/
inductive Stmt where
  | reraise
  | log (msg : String)
  | printMsg (msg : String)
deriving DecidableEq

/-- Sequential execution of an `except:` handler body, returning the list of
statements that actually execute: a bare `raise` re-raises the active
exception and aborts the handler, so statements after it never run. -/
def runHandler : List Stmt → List Stmt
  | [] => []
  | .reraise :: _ => [.reraise]
  | s :: rest => s :: runHandler rest

/-- Handler of the main stepping loop, `bootstrap_mhd_rbc.py` lines 582-584:
`except: raise` followed by the `logger.error` call. -/
def mainLoopHandler : List Stmt :=
  [Stmt.reraise, Stmt.log "Exception raised, triggering end of main loop."]

/-- Handler of the final-checkpoint block, `bootstrap_mhd_rbc.py` lines
599-601: `except: raise` followed by the `print` call. -/
def finalCheckpointHandler : List Stmt :=
  [Stmt.reraise, Stmt.printMsg "cannot save final checkpoint"]

/-- Python exception kinds relevant to the `--factor` setup step. -/
inductive PyExc where
  | typeError
deriving DecidableEq

/-- Model of `float(x)` applied to a docopt option value: `None` (flag absent
and without a default) raises `TypeError`, a supplied numeric value converts. -/
def pyFloatOfArg : Option ℚ → Except PyExc ℚ
  | none => .error .typeError
  | some x => .ok x

/-- Default value of the `--factor` flag: the Options block of
`bootstrap_mhd_rbc.py` (line 58) declares `--factor=<f>` with no
`[default: ...]`, so docopt yields `None` when the flag is not supplied. -/
def factorDefault : Option ℚ := none

/-- Setup computation of `bootstrap_mhd_rbc.py` lines 400-401:
`f = float(args['--factor'])` then `max_dt = 0.5*np.min((t_buoy, f/Q))`. -/
def computeMaxDt (factorArg : Option ℚ) (t_buoy Q : ℚ) : Except PyExc ℚ :=
  match pyFloatOfArg factorArg with
  | .error e => .error e
  | .ok f => .ok (1 / 2 * min t_buoy (f / Q))

/-- Setup followed by the main loop: the `max_dt` computation (line 401) runs
during setup, before the `try`/`while` block starting at line 473, so an
exception there propagates and the solver loop never starts.  The boolean
records whether the loop was entered. -/
def setupThenLoop (factorArg : Option ℚ) (t_buoy Q : ℚ) : Except PyExc ℚ × Bool :=
  match computeMaxDt factorArg t_buoy Q with
  | .error e => (.error e, false)
  | .ok md => (.ok md, true)

/-- Concrete 3D-run controller state used to exhibit that a fired bootstrap
step does not rescale the `v` velocity field. -/
def stC : BootState :=
  { cRa := 1, cQ := 1, u := 3, v := 2, w := 5,
    bootstrap_force_balances := 4, rolled := 4, bootstrap_i := 9,
    last_bootstrap_time := 0, bootstrap_now := false,
    bootstrap_wait_time := 1, bootstrap_steps := 0,
    max_dt := 8, cfl_max_dt := 8, t_buoy := 1 }

/-- The state produced by the fired step of `loopCheck` on `stC` with
`α = 1`, `β = 0`, `logStep = 2`, `Pr = 1` at `sim_time = 3`. -/
noncomputable def stC' : BootState :=
  applyBootstrapStep 1 0 2 1 3 { stC with bootstrap_now := false, bootstrap_steps := 1 }

/-- The post-firing state reached when, with marker last reset at time `q0t`,
a step fires at time `q1t`: `bootstrap_now` has been consumed and
`bootstrap_steps` incremented before the step body runs. -/
noncomputable def firedState (bootstrap_α bootstrap_β bootstrap_logStep : ℚ)
    (Pr q0t q1t : ℝ) (st : BootState) : BootState :=
  applyBootstrapStep bootstrap_α bootstrap_β bootstrap_logStep Pr q1t
    { st with
      last_bootstrap_time := q0t
      bootstrap_now := false
      bootstrap_steps := st.bootstrap_steps + 1 }

/-- Concrete controller state used in the C2 witness run. -/
def stW2 : BootState :=
  { cRa := 1, cQ := 1, u := 1, v := 1, w := 1,
    bootstrap_force_balances := 3, rolled := 3, bootstrap_i := 2,
    last_bootstrap_time := 0, bootstrap_now := false,
    bootstrap_wait_time := 1, bootstrap_steps := 0,
    max_dt := 1, cfl_max_dt := 1, t_buoy := 1 }

/-- Concrete controller state used in the C1 witness run. -/
def stW1 : BootState :=
  { cRa := 1, cQ := 2, u := 3, v := 4, w := 5,
    bootstrap_force_balances := 6, rolled := 7, bootstrap_i := 8,
    last_bootstrap_time := 0, bootstrap_now := false,
    bootstrap_wait_time := 1, bootstrap_steps := 0,
    max_dt := 9, cfl_max_dt := 9, t_buoy := 1 }

/-- Concrete controller state used in the C5 witness run. -/
def stW5 : BootState :=
  { cRa := 1, cQ := 1, u := 2, v := 2, w := 2,
    bootstrap_force_balances := 1, rolled := 1, bootstrap_i := 1,
    last_bootstrap_time := 0, bootstrap_now := false,
    bootstrap_wait_time := 4, bootstrap_steps := 2,
    max_dt := 6, cfl_max_dt := 6, t_buoy := 1 }

/-- Concrete controller state used in the C6 witness: the step budget is
already exhausted (`bootstrap_steps = max`), so a firing trigger ends the
loop. -/
def stW6 : BootState :=
  { cRa := 1, cQ := 1, u := 1, v := 1, w := 1,
    bootstrap_force_balances := 0, rolled := 0, bootstrap_i := 0,
    last_bootstrap_time := 0, bootstrap_now := false,
    bootstrap_wait_time := 1, bootstrap_steps := 4,
    max_dt := 1, cfl_max_dt := 1, t_buoy := 1 }

/-- Fired-step result used in the C1 witness run. -/
noncomputable def stW1' : BootState :=
  applyBootstrapStep 1 0 0 1 100
    { stW1 with bootstrap_now := false, bootstrap_steps := stW1.bootstrap_steps + 1 }

/-- Fired-step result used in the C5 witness run. -/
noncomputable def stW5' : BootState :=
  applyBootstrapStep 1 0 0 1 100
    { stW5 with bootstrap_now := false, bootstrap_steps := stW5.bootstrap_steps + 1 }

/-- Low-Reynolds phase of the C2 witness run (empty prefix). -/
def laW : List Sample := []

/-- Last low-Reynolds observation of the C2 witness run. -/
noncomputable def q0W : Sample := { re := 1/2, t := 1 }

/-- In-window high-Reynolds phase of the C2 witness run. -/
noncomputable def lbW : List Sample := [{ re := 2, t := 3/2 }]

/-- First observation past the wait window in the C2 witness run. -/
def q1W : Sample := { re := 2, t := 3 }

/-- C8: with both path exponents zero (`α = 0` and `β = 0`), a firing
bootstrap step takes the `bootstrap_β == 0` branch unconditionally: `Ra` is
advanced by the factor `10^logStep`, `Q` is held fixed, and the result is
identical to the `β == 0` branch for any `α`; the update is total, so no
configuration error is raised for this boundary case. -/
theorem c8_alpha_beta_zero_defaults (bootstrap_α bootstrap_logStep : ℚ) (cRa cQ : ℝ) :
    paramStep 0 0 bootstrap_logStep cRa cQ
      = (cRa * (10 : ℝ) ^ (bootstrap_logStep : ℝ), cQ)
    ∧ paramStep 0 0 bootstrap_logStep cRa cQ
      = paramStep bootstrap_α 0 bootstrap_logStep cRa cQ := by
  constructor
  · simp [paramStep]
  · simp [paramStep]

/-- C9: the executed part of each `except:` handler is the bare `raise`
alone: because `raise` precedes the `logger.error` call (lines 582-584) and
the `print('cannot save final checkpoint')` call (lines 599-601), neither
message statement is ever executed — the exception is re-raised unlogged,
contradicting the specified logged-then-re-raised behaviour. -/
theorem c9_handlers_reraise_without_logging :
    runHandler mainLoopHandler = [Stmt.reraise]
    ∧ runHandler finalCheckpointHandler = [Stmt.reraise] := by
  constructor <;> rfl

/-- C10: when `--factor` is not supplied, docopt leaves the option at its
default `None`, `float(None)` raises `TypeError` while the initial `max_dt`
is computed (lines 400-401), and the solver loop never starts. -/
theorem c10_missing_factor_raises (t_buoy Q : ℚ) :
    setupThenLoop factorDefault t_buoy Q = (.error .typeError, false) := by
  rfl

/-- C7: if the tracked `Re_avg` is non-finite, the `while` guard of each
script is false at the next check, so no further loop-body execution (hence
no further `solver.step` call) occurs, whatever the loop body does and
whatever the rest of the loop state is. -/
theorem c7_nonfinite_re_halts (s : SimLoopState)
    (h : s.Re_avg.isfinite = false) :
    ∀ (body : SimLoopState → SimLoopState) (fuel : ℕ),
      stepsTaken bootstrapWhileCond body fuel s = 0
      ∧ stepsTaken forcesWhileCond body fuel s = 0 := by
  intro body fuel
  have hb : bootstrapWhileCond s = false := by
    simp [bootstrapWhileCond, h]
  have hf : forcesWhileCond s = false := by
    simp [forcesWhileCond, h]
  cases fuel with
  | zero => exact ⟨rfl, rfl⟩
  | succ n => exact ⟨by simp [stepsTaken, hb], by simp [stepsTaken, hf]⟩

/-- C7 witness: a concrete loop state with `Re_avg = NaN` and `solver.ok`
true takes zero further steps under either guard. -/
theorem c7_nonfinite_re_halts_witness :
    (SimLoopState.mk true PyFloat.nan).Re_avg.isfinite = false
    ∧ (stepsTaken bootstrapWhileCond id 3 (SimLoopState.mk true PyFloat.nan) = 0
       ∧ stepsTaken forcesWhileCond id 3 (SimLoopState.mk true PyFloat.nan) = 0) :=
  ⟨rfl, c7_nonfinite_re_halts (SimLoopState.mk true PyFloat.nan) rfl id 3⟩

/-- The trigger heuristic only ever touches the marker and the
`bootstrap_now` flag; every other component of the state is preserved. -/
theorem triggerUpdate_frame (Re_avg sim_time : ℝ) (st : BootState) :
    ∃ l n, triggerUpdate Re_avg sim_time st
      = { st with last_bootstrap_time := l, bootstrap_now := n } := by
  unfold triggerUpdate
  split
  · exact ⟨sim_time, st.bootstrap_now, rfl⟩
  · split
    · exact ⟨st.last_bootstrap_time, true, rfl⟩
    · exact ⟨st.last_bootstrap_time, st.bootstrap_now, rfl⟩

/-- A loop iteration whose result increments the step counter is exactly a
fired step: its output is the step body applied to the post-trigger state
with `bootstrap_now` cleared and the counter incremented. -/
theorem loopCheck_fired (bootstrap_α bootstrap_β bootstrap_logStep : ℚ)
    (Pr Re_avg sim_time : ℝ) (m : ℕ) (st st' : BootState)
    (h : loopCheck bootstrap_α bootstrap_β bootstrap_logStep Pr Re_avg sim_time m st
      = some st')
    (hinc : st'.bootstrap_steps = st.bootstrap_steps + 1) :
    st' = applyBootstrapStep bootstrap_α bootstrap_β bootstrap_logStep Pr sim_time
      { triggerUpdate Re_avg sim_time st with
        bootstrap_now := false
        bootstrap_steps := st.bootstrap_steps + 1 } := by
  obtain ⟨l, n, hfr⟩ := triggerUpdate_frame Re_avg sim_time st
  unfold loopCheck at h
  rw [hfr] at h ⊢
  cases n with
  | false =>
    simp only [Bool.false_eq_true, if_false] at h
    exfalso
    have : st'.bootstrap_steps = st.bootstrap_steps := by
      rw [← Option.some.inj h]
    omega
  | true =>
    simp only [if_true] at h
    by_cases hm : st.bootstrap_steps = m
    · rw [if_pos hm] at h
      exact absurd h (by simp)
    · rw [if_neg hm] at h
      exact (Option.some.inj h).symm

/-- Processing an appended sample list is processing the two parts in
sequence, short-circuiting on a `break`. -/
theorem runSamples_append (bootstrap_α bootstrap_β bootstrap_logStep : ℚ)
    (Pr : ℝ) (m : ℕ) (a b : List Sample) (st : BootState) :
    runSamples bootstrap_α bootstrap_β bootstrap_logStep Pr m (a ++ b) st
      = (runSamples bootstrap_α bootstrap_β bootstrap_logStep Pr m a st).bind
          (runSamples bootstrap_α bootstrap_β bootstrap_logStep Pr m b) := by
  induction a generalizing st with
  | nil => rfl
  | cons q a ih =>
    rw [List.cons_append]
    simp only [runSamples]
    cases hq : loopCheck bootstrap_α bootstrap_β bootstrap_logStep Pr q.re q.t m st with
    | none => rfl
    | some st1 => simpa using ih st1

/-- An iteration observing `Re_avg < 1` in the armed state only resets the
marker to the current simulation time (line 532). -/
theorem loopCheck_low (bootstrap_α bootstrap_β bootstrap_logStep : ℚ)
    (Pr Re_avg sim_time : ℝ) (m : ℕ) (st : BootState)
    (hre : Re_avg < 1) (hnow : st.bootstrap_now = false) :
    loopCheck bootstrap_α bootstrap_β bootstrap_logStep Pr Re_avg sim_time m st
      = some { st with last_bootstrap_time := sim_time } := by
  unfold loopCheck triggerUpdate
  rw [if_pos hre]
  have hb : ({ st with last_bootstrap_time := sim_time } : BootState).bootstrap_now
      = false := hnow
  rw [hb]
  simp

/-- An iteration observing `Re_avg ≥ 1` within the wait window leaves the
controller state unchanged. -/
theorem loopCheck_idle (bootstrap_α bootstrap_β bootstrap_logStep : ℚ)
    (Pr Re_avg sim_time : ℝ) (m : ℕ) (st : BootState)
    (hre : ¬ Re_avg < 1)
    (hwait : ¬ sim_time - st.last_bootstrap_time > st.bootstrap_wait_time)
    (hnow : st.bootstrap_now = false) :
    loopCheck bootstrap_α bootstrap_β bootstrap_logStep Pr Re_avg sim_time m st
      = some st := by
  unfold loopCheck triggerUpdate
  rw [if_neg hre, if_neg hwait]
  simp [hnow]

/-- An iteration observing `Re_avg ≥ 1` beyond the wait window, with step
budget remaining, fires: `bootstrap_now` is set (line 534) and consumed, the
counter is incremented, and the step body is applied. -/
theorem loopCheck_fire (bootstrap_α bootstrap_β bootstrap_logStep : ℚ)
    (Pr Re_avg sim_time : ℝ) (m : ℕ) (st : BootState)
    (hre : ¬ Re_avg < 1)
    (hwait : sim_time - st.last_bootstrap_time > st.bootstrap_wait_time)
    (hm : st.bootstrap_steps ≠ m) :
    loopCheck bootstrap_α bootstrap_β bootstrap_logStep Pr Re_avg sim_time m st
      = some (applyBootstrapStep bootstrap_α bootstrap_β bootstrap_logStep Pr sim_time
          { st with
            bootstrap_now := false
            bootstrap_steps := st.bootstrap_steps + 1 }) := by
  unfold loopCheck triggerUpdate
  rw [if_neg hre, if_pos hwait]
  simp [hm]

/-- A run of low-Reynolds observations ending at `q0` carries the armed state
through, with the marker left at `q0.t`. -/
theorem runSamples_low (bootstrap_α bootstrap_β bootstrap_logStep : ℚ)
    (Pr : ℝ) (m : ℕ) (la : List Sample) (q0 : Sample) (st : BootState)
    (hnow : st.bootstrap_now = false)
    (hlow : ∀ x ∈ la, x.re < 1) (h0 : q0.re < 1) :
    runSamples bootstrap_α bootstrap_β bootstrap_logStep Pr m (la ++ [q0]) st
      = some { st with last_bootstrap_time := q0.t } := by
  induction la generalizing st with
  | nil =>
    simp only [List.nil_append, runSamples]
    rw [loopCheck_low bootstrap_α bootstrap_β bootstrap_logStep Pr q0.re q0.t m st h0 hnow]
  | cons x la ih =>
    rw [List.cons_append]
    simp only [runSamples]
    rw [loopCheck_low bootstrap_α bootstrap_β bootstrap_logStep Pr x.re x.t m st
      (hlow x (by simp)) hnow]
    exact ih { st with last_bootstrap_time := x.t } hnow
      (fun y hy => hlow y (by simp [hy]))

/-- A run of above-threshold observations inside the wait window leaves the
state untouched. -/
theorem runSamples_idle (bootstrap_α bootstrap_β bootstrap_logStep : ℚ)
    (Pr : ℝ) (m : ℕ) (lb : List Sample) (st : BootState)
    (hnow : st.bootstrap_now = false)
    (hb : ∀ x ∈ lb, 1 ≤ x.re
      ∧ x.t - st.last_bootstrap_time ≤ st.bootstrap_wait_time) :
    runSamples bootstrap_α bootstrap_β bootstrap_logStep Pr m lb st = some st := by
  induction lb with
  | nil => rfl
  | cons x lb ih =>
    obtain ⟨hx1, hx2⟩ := hb x (by simp)
    simp only [runSamples]
    rw [loopCheck_idle bootstrap_α bootstrap_β bootstrap_logStep Pr x.re x.t m st
      (not_lt.mpr hx1) (not_lt.mpr hx2) hnow]
    exact ih (fun y hy => hb y (by simp [hy]))

/-- C2: starting armed (`bootstrap_now` clear, budget remaining), after a
phase of sub-unity `Re_avg` observations ending at `q0` (each of which resets
the marker, leaving it at `q0.t`) followed by observations at or above 1, no
step fires while `sim_time - marker` stays within the wait time, and the step
fires exactly at the first observation `q1` exceeding it: the run up to and
including `q1` performs exactly one counter increment, zeroes the rolling
accumulators `bootstrap_force_balances` and `rolled`, resets `bootstrap_i`,
sets the marker to the current simulation time `q1.t`, and leaves
`bootstrap_now` clear (re-entering the armed state). -/
theorem c2_single_fire_at_first_exceeding_sample
    (bootstrap_α bootstrap_β bootstrap_logStep : ℚ) (Pr : ℝ) (m : ℕ)
    (st : BootState) (la : List Sample) (q0 : Sample) (lb : List Sample) (q1 : Sample)
    (hnow : st.bootstrap_now = false)
    (hmax : st.bootstrap_steps ≠ m)
    (hlow : ∀ x ∈ la, x.re < 1) (h0 : q0.re < 1)
    (hhigh : ∀ x ∈ lb, 1 ≤ x.re)
    (hwin : ∀ x ∈ lb, x.t - q0.t ≤ st.bootstrap_wait_time)
    (h1 : 1 ≤ q1.re)
    (hfire : q1.t - q0.t > st.bootstrap_wait_time) :
    runSamples bootstrap_α bootstrap_β bootstrap_logStep Pr m (la ++ q0 :: lb) st
      = some { st with last_bootstrap_time := q0.t }
    ∧ runSamples bootstrap_α bootstrap_β bootstrap_logStep Pr m
        (la ++ q0 :: (lb ++ [q1])) st
      = some (firedState bootstrap_α bootstrap_β bootstrap_logStep Pr q0.t q1.t st)
    ∧ (firedState bootstrap_α bootstrap_β bootstrap_logStep Pr q0.t q1.t
        st).bootstrap_steps = st.bootstrap_steps + 1
    ∧ (firedState bootstrap_α bootstrap_β bootstrap_logStep Pr q0.t q1.t
        st).bootstrap_force_balances = 0
    ∧ (firedState bootstrap_α bootstrap_β bootstrap_logStep Pr q0.t q1.t
        st).rolled = 0
    ∧ (firedState bootstrap_α bootstrap_β bootstrap_logStep Pr q0.t q1.t
        st).bootstrap_i = 0
    ∧ (firedState bootstrap_α bootstrap_β bootstrap_logStep Pr q0.t q1.t
        st).last_bootstrap_time = q1.t
    ∧ (firedState bootstrap_α bootstrap_β bootstrap_logStep Pr q0.t q1.t
        st).bootstrap_now = false := by
  have hA : runSamples bootstrap_α bootstrap_β bootstrap_logStep Pr m (la ++ [q0]) st
      = some { st with last_bootstrap_time := q0.t } :=
    runSamples_low bootstrap_α bootstrap_β bootstrap_logStep Pr m la q0 st hnow hlow h0
  have hIdle : runSamples bootstrap_α bootstrap_β bootstrap_logStep Pr m lb
      { st with last_bootstrap_time := q0.t }
      = some { st with last_bootstrap_time := q0.t } :=
    runSamples_idle bootstrap_α bootstrap_β bootstrap_logStep Pr m lb
      { st with last_bootstrap_time := q0.t } hnow
      (fun x hx => ⟨hhigh x hx, hwin x hx⟩)
  have part1 : runSamples bootstrap_α bootstrap_β bootstrap_logStep Pr m
      (la ++ q0 :: lb) st = some { st with last_bootstrap_time := q0.t } := by
    rw [List.append_cons, runSamples_append, hA, Option.some_bind]
    exact hIdle
  have part2 : runSamples bootstrap_α bootstrap_β bootstrap_logStep Pr m
      (la ++ q0 :: (lb ++ [q1])) st
      = some (firedState bootstrap_α bootstrap_β bootstrap_logStep Pr q0.t q1.t st) := by
    rw [List.append_cons, runSamples_append, hA, Option.some_bind,
      runSamples_append, hIdle, Option.some_bind]
    simp only [runSamples]
    rw [loopCheck_fire bootstrap_α bootstrap_β bootstrap_logStep Pr q1.re q1.t m
      { st with last_bootstrap_time := q0.t } (not_lt.mpr h1) hfire hmax]
    rfl
  refine ⟨part1, part2, rfl, mul_zero _, mul_zero _, rfl, rfl, rfl⟩

/-- C2 witness: a concrete run — one low observation at `t = 1`, one
in-window high observation at `t = 3/2`, and the first over-window high
observation at `t = 3` — fires exactly once, with all resets. -/
theorem c2_single_fire_witness :
    stW2.bootstrap_now = false
    ∧ stW2.bootstrap_steps ≠ 5
    ∧ (∀ x ∈ laW, x.re < 1)
    ∧ q0W.re < 1
    ∧ (∀ x ∈ lbW, 1 ≤ x.re)
    ∧ (∀ x ∈ lbW, x.t - q0W.t ≤ stW2.bootstrap_wait_time)
    ∧ 1 ≤ q1W.re
    ∧ q1W.t - q0W.t > stW2.bootstrap_wait_time
    ∧ (runSamples 1 0 0 1 5 (laW ++ q0W :: lbW) stW2
        = some { stW2 with last_bootstrap_time := q0W.t }
      ∧ runSamples 1 0 0 1 5 (laW ++ q0W :: (lbW ++ [q1W])) stW2
        = some (firedState 1 0 0 1 q0W.t q1W.t stW2)
      ∧ (firedState 1 0 0 1 q0W.t q1W.t stW2).bootstrap_steps
        = stW2.bootstrap_steps + 1
      ∧ (firedState 1 0 0 1 q0W.t q1W.t stW2).bootstrap_force_balances = 0
      ∧ (firedState 1 0 0 1 q0W.t q1W.t stW2).rolled = 0
      ∧ (firedState 1 0 0 1 q0W.t q1W.t stW2).bootstrap_i = 0
      ∧ (firedState 1 0 0 1 q0W.t q1W.t stW2).last_bootstrap_time = q1W.t
      ∧ (firedState 1 0 0 1 q0W.t q1W.t stW2).bootstrap_now = false) :=
  ⟨rfl, by norm_num [stW2], by simp [laW], by norm_num [q0W],
    by norm_num [lbW],
    by norm_num [lbW, q0W, stW2],
    by norm_num [q1W],
    by norm_num [q1W, q0W, stW2],
    c2_single_fire_at_first_exceeding_sample 1 0 0 1 5 stW2 laW q0W lbW q1W
      rfl (by norm_num [stW2]) (by simp [laW]) (by norm_num [q0W])
      (by norm_num [lbW])
      (by norm_num [lbW, q0W, stW2])
      (by norm_num [q1W])
      (by norm_num [q1W, q0W, stW2])⟩

/-- C1 (amended): a fired bootstrap step (a loop iteration whose result
increments the step counter) multiplies the `u` and `w` velocity fields
pointwise by `sqrt(Ra_new/Ra_old)`; the `v` velocity field of a 3D run is
NOT rescaled — lines 557-560 touch only `u` and `w`, so `v` is left
unchanged. -/
theorem c1_velocity_scaling_amended
    (bootstrap_α bootstrap_β bootstrap_logStep : ℚ)
    (Pr Re_avg sim_time : ℝ) (m : ℕ) (st st' : BootState)
    (h : loopCheck bootstrap_α bootstrap_β bootstrap_logStep Pr Re_avg sim_time m st
      = some st')
    (hinc : st'.bootstrap_steps = st.bootstrap_steps + 1) :
    st'.u = st.u * Real.sqrt (st'.cRa / st.cRa)
    ∧ st'.w = st.w * Real.sqrt (st'.cRa / st.cRa)
    ∧ st'.v = st.v := by
  have hs := loopCheck_fired bootstrap_α bootstrap_β bootstrap_logStep Pr Re_avg
    sim_time m st st' h hinc
  obtain ⟨l, n, hfr⟩ := triggerUpdate_frame Re_avg sim_time st
  rw [hfr] at hs
  subst hs
  simp [applyBootstrapStep]

/-- C1 witness: a concrete fired step rescales `u` and `w` by the square
root of the Rayleigh ratio and leaves `v` alone. -/
theorem c1_velocity_scaling_witness :
    loopCheck 1 0 0 1 2 100 9 stW1 = some stW1'
    ∧ stW1'.bootstrap_steps = stW1.bootstrap_steps + 1
    ∧ (stW1'.u = stW1.u * Real.sqrt (stW1'.cRa / stW1.cRa)
       ∧ stW1'.w = stW1.w * Real.sqrt (stW1'.cRa / stW1.cRa)
       ∧ stW1'.v = stW1.v) := by
  have h : loopCheck 1 0 0 1 2 100 9 stW1 = some stW1' :=
    loopCheck_fire 1 0 0 1 2 100 9 stW1 (by norm_num)
      (by norm_num [stW1]) (by norm_num [stW1])
  exact ⟨h, rfl,
    c1_velocity_scaling_amended 1 0 0 1 2 100 9 stW1 stW1' h rfl⟩

/-- C1 counterexample: the claim that EVERY velocity-component state field
(`u`, `v` and `w` in 3D) is multiplied by `sqrt(Ra_new/Ra_old)` fails: in
the concrete fired step from `stC` (a 3D-run state with `v = 2`) the
Rayleigh number grows from 1 to 100, so the claimed factor is
`sqrt(100/1) = 10`, yet `v` remains `2` rather than `10 * 2`. -/
theorem c1_velocity_scaling_counterexample :
    loopCheck 1 0 2 1 2 3 7 stC = some stC'
    ∧ stC'.bootstrap_steps = stC.bootstrap_steps + 1
    ∧ stC'.v ≠ Real.sqrt (stC'.cRa / stC.cRa) * stC.v := by
  refine ⟨?_, rfl, ?_⟩
  · exact loopCheck_fire 1 0 2 1 2 3 7 stC (by norm_num)
      (by norm_num [stC]) (by norm_num [stC])
  · have hcRa : stC'.cRa = 100 := by
      simp [stC', applyBootstrapStep, paramStep, stC]
      norm_num
    have hv : stC'.v = 2 := by
      simp [stC', applyBootstrapStep, stC]
    have hsq : Real.sqrt (stC'.cRa / stC.cRa) = 10 := by
      rw [hcRa, show stC.cRa = 1 from rfl, div_one,
        show (100 : ℝ) = 10 ^ 2 by norm_num]
      exact Real.sqrt_sq (by norm_num)
    rw [hv, hsq, show stC.v = (2 : ℝ) from rfl]
    norm_num

/-- C5: on every fired bootstrap step the wait time and `max_dt` are each
multiplied by exactly `Ra_old/Ra_new` (lines 562-563), and the resulting
`max_dt` is installed as the CFL controller's `max_dt` (line 564). -/
theorem c5_wait_time_max_dt_rescaled
    (bootstrap_α bootstrap_β bootstrap_logStep : ℚ)
    (Pr Re_avg sim_time : ℝ) (m : ℕ) (st st' : BootState)
    (h : loopCheck bootstrap_α bootstrap_β bootstrap_logStep Pr Re_avg sim_time m st
      = some st')
    (hinc : st'.bootstrap_steps = st.bootstrap_steps + 1) :
    st'.bootstrap_wait_time = st.bootstrap_wait_time * (st.cRa / st'.cRa)
    ∧ st'.max_dt = st.max_dt * (st.cRa / st'.cRa)
    ∧ st'.cfl_max_dt = st'.max_dt := by
  have hs := loopCheck_fired bootstrap_α bootstrap_β bootstrap_logStep Pr Re_avg
    sim_time m st st' h hinc
  obtain ⟨l, n, hfr⟩ := triggerUpdate_frame Re_avg sim_time st
  rw [hfr] at hs
  subst hs
  simp [applyBootstrapStep]

/-- C5 witness: a concrete fired step rescales the wait time and `max_dt` by
the Rayleigh ratio and installs the new `max_dt` in the CFL controller. -/
theorem c5_wait_time_max_dt_witness :
    loopCheck 1 0 0 1 2 100 9 stW5 = some stW5'
    ∧ stW5'.bootstrap_steps = stW5.bootstrap_steps + 1
    ∧ (stW5'.bootstrap_wait_time = stW5.bootstrap_wait_time * (stW5.cRa / stW5'.cRa)
       ∧ stW5'.max_dt = stW5.max_dt * (stW5.cRa / stW5'.cRa)
       ∧ stW5'.cfl_max_dt = stW5'.max_dt) := by
  have h : loopCheck 1 0 0 1 2 100 9 stW5 = some stW5' :=
    loopCheck_fire 1 0 0 1 2 100 9 stW5 (by norm_num)
      (by norm_num [stW5]) (by norm_num [stW5])
  exact ⟨h, rfl,
    c5_wait_time_max_dt_rescaled 1 0 0 1 2 100 9 stW5 stW5' h rfl⟩

/-- C6: starting from a step counter within the budget, a loop iteration
keeps the counter at or below the configured maximum, and it ends the main
loop (the `break` on line 540, modelled as `none`) exactly when a step would
fire (`bootstrap_now` set after the trigger) while the counter already equals
the maximum — in which case no parameter increment is applied, since the
iteration produces no successor state. -/
theorem c6_step_budget_invariant
    (bootstrap_α bootstrap_β bootstrap_logStep : ℚ)
    (Pr Re_avg sim_time : ℝ) (m : ℕ) (st st' : BootState)
    (h : st.bootstrap_steps ≤ m) :
    (loopCheck bootstrap_α bootstrap_β bootstrap_logStep Pr Re_avg sim_time m st
        = some st' → st'.bootstrap_steps ≤ m)
    ∧ (loopCheck bootstrap_α bootstrap_β bootstrap_logStep Pr Re_avg sim_time m st
        = none
      ↔ (triggerUpdate Re_avg sim_time st).bootstrap_now = true
        ∧ st.bootstrap_steps = m) := by
  obtain ⟨l, n, hfr⟩ := triggerUpdate_frame Re_avg sim_time st
  unfold loopCheck
  rw [hfr]
  cases n with
  | false =>
    constructor
    · intro hsome
      have h2 := hsome
      simp only [Bool.false_eq_true, if_false, Option.some.injEq] at h2
      have hst : st'.bootstrap_steps = st.bootstrap_steps := by
        rw [← h2]
      omega
    · simp
  | true =>
    by_cases hm : st.bootstrap_steps = m
    · constructor
      · intro hsome
        exact absurd hsome (by simp [hm])
      · simp [hm]
    · constructor
      · intro hsome
        have h2 := hsome
        simp only [if_true, hm, if_false, Option.some.injEq] at h2
        have hst : st'.bootstrap_steps = st.bootstrap_steps + 1 := by
          rw [← h2]
          rfl
        omega
      · simp [hm]

/-- C6 witness: with the budget already exhausted (`bootstrap_steps = 4` and
maximum 4), a firing trigger makes the iteration terminate the loop. -/
theorem c6_step_budget_witness :
    stW6.bootstrap_steps ≤ 4
    ∧ ((loopCheck 1 0 0 1 2 100 4 stW6 = some stW6 →
          stW6.bootstrap_steps ≤ 4)
       ∧ (loopCheck 1 0 0 1 2 100 4 stW6 = none
          ↔ (triggerUpdate 2 100 stW6).bootstrap_now = true
            ∧ stW6.bootstrap_steps = 4)) :=
  ⟨by norm_num [stW6],
    c6_step_budget_invariant 1 0 0 1 2 100 4 stW6 stW6 (by norm_num [stW6])⟩

/-- C3: with `β = 0`, iterating the fired-step body `N` times (one firing
time per list element) multiplies the Rayleigh number by `10^(N·logStep)` and
leaves the Chandrasekhar number unchanged: after `N` fired steps,
`Ra_N = Ra_0 * 10^(N·logStep)` and `Q_N = Q_0`.  This holds for every `N`,
in particular for every `N` up to the configured maximum. -/
theorem c3_beta_zero_closed_form (bootstrap_α bootstrap_logStep : ℚ) (Pr : ℝ)
    (ts : List ℝ) (st : BootState) :
    (applyStepsOver bootstrap_α 0 bootstrap_logStep Pr ts st).cRa
      = st.cRa * (10 : ℝ) ^ ((ts.length : ℝ) * (bootstrap_logStep : ℝ))
    ∧ (applyStepsOver bootstrap_α 0 bootstrap_logStep Pr ts st).cQ = st.cQ := by
  induction ts generalizing st with
  | nil =>
    simp [applyStepsOver]
  | cons t ts ih =>
    have hRa : (applyBootstrapStep bootstrap_α 0 bootstrap_logStep Pr t st).cRa
        = st.cRa * (10 : ℝ) ^ (bootstrap_logStep : ℝ) := by
      simp [applyBootstrapStep, paramStep]
    have hQ : (applyBootstrapStep bootstrap_α 0 bootstrap_logStep Pr t st).cQ
        = st.cQ := by
      simp [applyBootstrapStep, paramStep]
    obtain ⟨ih1, ih2⟩ := ih (applyBootstrapStep bootstrap_α 0 bootstrap_logStep Pr t st)
    constructor
    · simp only [applyStepsOver]
      rw [ih1, hRa, mul_assoc, ← Real.rpow_add (by norm_num : (0:ℝ) < 10)]
      congr 1
      simp only [List.length_cons]
      push_cast
      ring_nf
    · simp only [applyStepsOver]
      rw [ih2, hQ]

/-- C4 (amended): with both path exponents nonzero, each fired step updates
`Ra_new = Ra_old * 10^logStep` and `Q_new = Q_old / (10^logStep)^(α/β)`
exactly as claimed, but the quantity this keeps invariant is
`Q * Ra^(α/β)` — the traversed path satisfies the power law
`Q ∝ Ra^(−α/β)`, not `Q ∝ Ra^(α/β)`. -/
theorem c4_power_law_amended (bootstrap_α bootstrap_β bootstrap_logStep : ℚ)
    (cRa cQ : ℝ) (hα : bootstrap_α ≠ 0) (hβ : bootstrap_β ≠ 0) (hRa : 0 ≤ cRa) :
    paramStep bootstrap_α bootstrap_β bootstrap_logStep cRa cQ
      = (cRa * (10 : ℝ) ^ (bootstrap_logStep : ℝ),
         cQ / ((10 : ℝ) ^ (bootstrap_logStep : ℝ))
              ^ ((bootstrap_α : ℝ) / (bootstrap_β : ℝ)))
    ∧ (paramStep bootstrap_α bootstrap_β bootstrap_logStep cRa cQ).2
        * (paramStep bootstrap_α bootstrap_β bootstrap_logStep cRa cQ).1
          ^ ((bootstrap_α : ℝ) / (bootstrap_β : ℝ))
      = cQ * cRa ^ ((bootstrap_α : ℝ) / (bootstrap_β : ℝ)) := by
  have hform : paramStep bootstrap_α bootstrap_β bootstrap_logStep cRa cQ
      = (cRa * (10 : ℝ) ^ (bootstrap_logStep : ℝ),
         cQ / ((10 : ℝ) ^ (bootstrap_logStep : ℝ))
              ^ ((bootstrap_α : ℝ) / (bootstrap_β : ℝ))) := by
    rw [paramStep, if_neg hβ, if_neg hα]
  refine ⟨hform, ?_⟩
  rw [hform]
  have h10 : (0:ℝ) < (10 : ℝ) ^ (bootstrap_logStep : ℝ) :=
    Real.rpow_pos_of_pos (by norm_num) _
  have hX : (0:ℝ) < ((10 : ℝ) ^ (bootstrap_logStep : ℝ))
      ^ ((bootstrap_α : ℝ) / (bootstrap_β : ℝ)) :=
    Real.rpow_pos_of_pos h10 _
  have hX0 : (((10 : ℝ) ^ (bootstrap_logStep : ℝ))
      ^ ((bootstrap_α : ℝ) / (bootstrap_β : ℝ))) ≠ 0 := ne_of_gt hX
  show cQ / _ * (cRa * (10 : ℝ) ^ (bootstrap_logStep : ℝ))
      ^ ((bootstrap_α : ℝ) / (bootstrap_β : ℝ)) = _
  rw [Real.mul_rpow hRa (le_of_lt h10)]
  field_simp
  ring_nf

/-- C4 witness: at `α = β = logStep = 1` and `Ra = Q = 1`, the fired-step
update takes the claimed form and preserves `Q * Ra^(α/β)`. -/
theorem c4_power_law_witness :
    (1:ℚ) ≠ 0 ∧ (0:ℝ) ≤ 1
    ∧ (paramStep 1 1 1 1 1
        = ((1:ℝ) * (10 : ℝ) ^ (((1:ℚ)) : ℝ),
           (1:ℝ) / ((10 : ℝ) ^ (((1:ℚ)) : ℝ))
                ^ ((((1:ℚ)) : ℝ) / (((1:ℚ)) : ℝ)))
      ∧ (paramStep 1 1 1 1 1).2
          * (paramStep 1 1 1 1 1).1 ^ ((((1:ℚ)) : ℝ) / (((1:ℚ)) : ℝ))
        = (1:ℝ) * (1:ℝ) ^ ((((1:ℚ)) : ℝ) / (((1:ℚ)) : ℝ))) :=
  ⟨by norm_num, by norm_num,
    c4_power_law_amended 1 1 1 1 1 (by norm_num) (by norm_num) (by norm_num)⟩

/-- C4 counterexample: the claimed power law `Q ∝ Ra^(α/β)` along the path —
which on one fired step says `Q_new * Ra_old^(α/β) = Q_old * Ra_new^(α/β)` —
fails at `α = β = logStep = 1`, `Ra_old = Q_old = 1`: the step produces
`Ra_new = 10` and `Q_new = 1/10`, and `(1/10)·1 ≠ 1·10`. -/
theorem c4_power_law_counterexample :
    (paramStep 1 1 1 1 1).2 * (1:ℝ) ^ ((((1:ℚ)) : ℝ) / (((1:ℚ)) : ℝ))
      ≠ (1:ℝ) * (paramStep 1 1 1 1 1).1 ^ ((((1:ℚ)) : ℝ) / (((1:ℚ)) : ℝ)) := by
  have hform : paramStep 1 1 1 1 1 = ((10:ℝ), (1:ℝ)/10) := by
    rw [paramStep, if_neg (by norm_num : (1:ℚ) ≠ 0), if_neg (by norm_num : (1:ℚ) ≠ 0)]
    norm_num [Real.rpow_one]
  rw [hform]
  norm_num [Real.rpow_one, Real.one_rpow]
